import Mathlib

/-!
Shallow embedding of `docker_test_tools/environment.py` (class
`EnvironmentController`).

Pure string-processing code (`is_container_ready`'s state-blob
classification, `split_logs`'s line parsing) is embedded as Lean functions
over `String` / `List Char`, with Python's `str.find`, `str.rfind` and
slice semantics (`-1` sentinel, negative-index slices) modelled explicitly.

Effectful code (the docker-compose command wrappers, `setup`, `teardown`,
`container_down`, `container_paused`) is embedded in a writer-plus-exception
monad `M`: a computation returns the list of runtime-command invocations it
attempted (its observable trace) together with either a value or a raised
exception.  Python's `try/finally` and bare `try/except` are embedded as
`tryFinallyM` / `tryCatchM` with Python's semantics: a `finally` block always
runs and an exception it raises replaces the in-flight one; a handler runs
only on exception.  The external container runtime is an oracle (`Runtime`)
giving each command's outcome; the readiness-polling loop of
`wait_for_services` is modelled both as a single observable call (for
operation traces) and as a pure poll loop over tick-indexed readiness (for
the waiter's own contract).
-/

/-! ### Python string primitives -/

/-- Does `p` occur as a prefix of `c`? (helper for substring containment). -/
def charsStartWith : List Char → List Char → Bool
  | [], _ => true
  | _ :: _, [] => false
  | p :: ps, c :: cs => p == c && charsStartWith ps cs

/-- Does `pat` occur as a contiguous substring of the char list? -/
def charsContain (pat : List Char) : List Char → Bool
  | [] => charsStartWith pat []
  | c :: cs => charsStartWith pat (c :: cs) || charsContain pat cs

/-- Python's `pat in s` substring test. -/
def strContains (s pat : String) : Bool := charsContain pat.toList s.toList

/-- Python's `s.find(c)`: index of the first occurrence of `c`, else `-1`. -/
def pyFind (s : List Char) (c : Char) : Int :=
  match s with
  | [] => -1
  | a :: as =>
    if a == c then 0
    else
      match pyFind as c with
      | -1 => -1
      | n => n + 1

/-- Rightmost index of `c` in `s`, else `-1` (helper for `pyRFind`). -/
def rightmostIdx (c : Char) : List Char → Int
  | [] => -1
  | a :: as =>
    match rightmostIdx c as with
    | -1 => if a == c then 0 else -1
    | n => n + 1

/-- Python's `s.rfind(c, 0, stop)`: highest index of `c` in `s[0:stop]`,
else `-1`. -/
def pyRFind (s : List Char) (c : Char) (stop : Nat) : Int :=
  rightmostIdx c (s.take stop)

/-- Python's slice `s[:r]` for an `r` that may be negative (as returned by
`find`/`rfind`): a negative `r` counts from the end, so `s[:-1]` is the list
without its final element. -/
def pySliceTo (s : List Char) (r : Int) : List Char :=
  if r < 0 then s.take (s.length - (-r).toNat) else s.take r.toNat

/-! ### Readiness classification (`is_container_ready`, lines 267-270) -/

/-- The classification at the end of `is_container_ready`, verbatim from the
source: `'"Health":' in status_output` selects the health tier, and the
result is substring containment of `'"Status":"healthy"'` (health tier) or
`'"Status":"running"'` (run tier). -/
def is_container_ready_classify (status_output : String) : Bool :=
  if strContains status_output "\"Health\":" then
    strContains status_output "\"Status\":\"healthy\""
  else
    strContains status_output "\"Status\":\"running\""

/-- Health sub-state reported by the runtime when a health check is
declared. -/
inductive HealthState where
  | starting
  | healthy
  | unhealthy
deriving DecidableEq

/-- Container run state reported by the runtime. -/
inductive RunState where
  | created
  | running
  | paused
  | restarting
  | removing
  | exited
  | dead
deriving DecidableEq

def healthStateText : HealthState → String
  | HealthState.starting => "starting"
  | HealthState.healthy => "healthy"
  | HealthState.unhealthy => "unhealthy"

def runStateText : RunState → String
  | RunState.created => "created"
  | RunState.running => "running"
  | RunState.paused => "paused"
  | RunState.restarting => "restarting"
  | RunState.removing => "removing"
  | RunState.exited => "exited"
  | RunState.dead => "dead"

/-- The state blob produced by the external runtime for
`docker inspect --format='{{json .State}}'` (an external collaborator, not
repository code): a JSON object whose run-status field is
`"Status":"<run state>"` and which carries a `"Health"` sub-object with its
own `"Status":"<health state>"` exactly when a health check is declared. -/
def renderStateBlob (rs : RunState) (h : Option HealthState) : String :=
  "\x7b\"Status\":\"" ++ runStateText rs ++ "\",\"Running\":" ++
    (if rs == RunState.running then "true" else "false") ++
    (match h with
     | none => ""
     | some hs =>
       ",\"Health\":\x7b\"Status\":\"" ++ healthStateText hs ++
         "\",\"FailingStreak\":0\x7d") ++ "\x7d"

/-- The two-tier readiness rule as the specification words it: with a
declared health check, ready iff the health status is healthy; without one,
ready iff the run status is running. -/
def readinessSpec (rs : RunState) (h : Option HealthState) : Bool :=
  match h with
  | some hs => hs == HealthState.healthy
  | none => rs == RunState.running

/-! ### Log splitting (`split_logs`, lines 129-148) -/

/-- `SEPARATOR = '|'` (line 11). -/
def SEPARATOR : Char := '|'

/-- `UNDERSCORE = '_'` (line 12). -/
def UNDERSCORE : Char := '_'

/-- Parsing of one combined-log line (lines 142-145): find the separator
(skip the line if absent), recover the service name as
`log_line[:log_line.rfind('_', 0, separator_location)]`, and take the
message as `log_line[separator_location + 1:]`. -/
def splitLogLine (log_line : List Char) : Option (List Char × List Char) :=
  let separator_location := pyFind log_line SEPARATOR
  if separator_location == -1 then none
  else
    some (pySliceTo log_line (pyRFind log_line UNDERSCORE separator_location.toNat),
          log_line.drop (separator_location.toNat + 1))

/-- The per-service output files as an association list from service name to
accumulated file contents; one (empty) file is opened per service before the
pass over the input (line 137). -/
def initLogFiles (service_names : List String) : List (String × String) :=
  service_names.map fun s => (s, "")

/-- `services_log_files[service_name].write(message)`: appends to the
service's file, or raises a key-not-found error (Python `KeyError`) carrying
the missing name when `service_name` is not a key. -/
def writeMessage (files : List (String × String)) (service_name message : String) :
    Except String (List (String × String)) :=
  if (files.lookup service_name).isSome then
    Except.ok (files.map fun p => if p.1 == service_name then (p.1, p.2 ++ message) else p)
  else
    Except.error service_name

/-- One iteration of the line loop: a raised error aborts the pass; a line
without the separator leaves every file untouched; otherwise the message is
written to the recovered service's file. -/
def processLogLine (st : Except String (List (String × String))) (line : String) :
    Except String (List (String × String)) :=
  match st with
  | Except.error e => Except.error e
  | Except.ok files =>
    match splitLogLine line.toList with
    | none => Except.ok files
    | some (nm, msg) => writeMessage files (String.mk nm) (String.mk msg)

/-- `split_logs`, functionally: the combined log is the list of its lines
(each keeping its trailing newline, as `readlines()` yields them); the
result is either the per-service file contents or the raised key-not-found
error. -/
def split_logs (service_names : List String) (lines : List String) :
    Except String (List (String × String)) :=
  lines.foldl processLogLine (Except.ok (initLogFiles service_names))

/-! ### Effect model: exceptions, runtime-command events, trace monad -/

/-- Exceptions raised by the controller: `ValueError` from
`validate_service_name`, `RuntimeError` from a failed runtime command
(tagged with the raising operation), the key-not-found error from
`split_logs`, and arbitrary exceptions raised by caller code inside a
protected block. -/
inductive Exc where
  | invalidService (name : String)
  | runtimeError (op : String)
  | stepError (op : String)
  | userError (tag : Nat)
deriving DecidableEq

/-- Observable effects: one event per attempted runtime command, plus the
execution of a caller's protected block and a call into the readiness
waiter. -/
inductive Event where
  | cmdKillAll
  | cmdRemove
  | cmdUp
  | cmdLogsStart
  | cmdLogsStop
  | cmdKill (name : String)
  | cmdRestart (name : String)
  | cmdPause (name : String)
  | cmdUnpause (name : String)
  | cmdPs (name : String)
  | cmdInspect (name : String)
  | blockRun
  | waitFor (names : List String)
  | logSplit
deriving DecidableEq

/-- A controller computation: the trace of events it performed together with
its outcome (a value, or a raised exception). -/
abbrev M (α : Type) := List Event × Except Exc α

def pureM {α : Type} (a : α) : M α := ([], Except.ok a)

def raiseM {α : Type} (e : Exc) : M α := ([], Except.error e)

/-- Sequencing: a raised exception skips the rest of the computation. -/
def bindM {α β : Type} (m : M α) (f : α → M β) : M β :=
  match m with
  | (evs, Except.error e) => (evs, Except.error e)
  | (evs, Except.ok a) =>
    let r := f a
    (evs ++ r.1, r.2)

/-- Python `try/finally`: the finaliser always runs, after the body and on
every exit path; an exception raised by the finaliser replaces the body's
in-flight outcome. -/
def tryFinallyM {α : Type} (body : M α) (fin : M Unit) : M α :=
  (body.1 ++ fin.1,
   match fin.2 with
   | Except.error e => Except.error e
   | Except.ok _ => body.2)

/-- Python bare `try/except`: the handler runs only when the body raised,
receiving the raised exception. -/
def tryCatchM {α : Type} (body : M α) (handler : Exc → M α) : M α :=
  match body with
  | (evs, Except.ok a) => (evs, Except.ok a)
  | (evs, Except.error e) =>
    let r := handler e
    (evs ++ r.1, r.2)

/-- The external container runtime as an oracle: for each command, whether
it exits zero; for the id (`ps -q`) and `inspect` queries, `some output` on
success and `none` on non-zero exit; and the abstract outcome of a
readiness-wait call. -/
structure Runtime where
  killOk : String → Bool
  restartOk : String → Bool
  pauseOk : String → Bool
  unpauseOk : String → Bool
  psRes : String → Option String
  inspectRes : String → Option String
  waitReady : List String → Bool
  killAllOk : Bool
  removeOk : Bool
  upOk : Bool
  logsStartOk : Bool
  logsStopOk : Bool
  logSplitOk : Bool

/-- The controller state the claims depend on: the service registry derived
once at construction, and the container-reuse flag. -/
structure EnvironmentController where
  services : List String
  reuse_containers : Bool

/-! ### Per-service operations (lines 172-273, 349-351) -/

/-- `validate_service_name` (lines 349-351): raises `ValueError` when the
name is not in the registry; issues no runtime command. -/
def validate_service_name (c : EnvironmentController) (name : String) : M Unit :=
  if name ∈ c.services then pureM () else raiseM (Exc.invalidService name)

/-- `kill_container` (lines 172-185): validate, then attempt
`docker-compose kill <name>`, raising `RuntimeError` on non-zero exit. -/
def kill_container (c : EnvironmentController) (rt : Runtime) (name : String) : M Unit :=
  bindM (validate_service_name c name) fun _ =>
    ([Event.cmdKill name],
     if rt.killOk name then Except.ok () else Except.error (Exc.runtimeError "kill_container"))

/-- `restart_container` (lines 187-200). -/
def restart_container (c : EnvironmentController) (rt : Runtime) (name : String) : M Unit :=
  bindM (validate_service_name c name) fun _ =>
    ([Event.cmdRestart name],
     if rt.restartOk name then Except.ok () else Except.error (Exc.runtimeError "restart_container"))

/-- `pause_container` (lines 202-215). -/
def pause_container (c : EnvironmentController) (rt : Runtime) (name : String) : M Unit :=
  bindM (validate_service_name c name) fun _ =>
    ([Event.cmdPause name],
     if rt.pauseOk name then Except.ok () else Except.error (Exc.runtimeError "pause_container"))

/-- `unpause_container` (lines 217-230). -/
def unpause_container (c : EnvironmentController) (rt : Runtime) (name : String) : M Unit :=
  bindM (validate_service_name c name) fun _ =>
    ([Event.cmdUnpause name],
     if rt.unpauseOk name then Except.ok ()
     else Except.error (Exc.runtimeError "unpause_container"))

/-- `get_container_id` (lines 232-244): validate, then
`docker-compose ps -q <name>`; a non-zero exit raises `RuntimeError` — it is
not caught here. -/
def get_container_id (c : EnvironmentController) (rt : Runtime) (name : String) : M String :=
  bindM (validate_service_name c name) fun _ =>
    ([Event.cmdPs name],
     match rt.psRes name with
     | some out => Except.ok out
     | none => Except.error (Exc.runtimeError "get_container_id"))

/-- `is_container_ready` (lines 246-273): validate, resolve the container id
(outside any handler, so a `RuntimeError` from `get_container_id`
propagates), then inspect the container; only a failure of the inspect
command is caught (logged as a warning) and turned into `False`; on success
the state blob is classified by `is_container_ready_classify`. -/
def is_container_ready (c : EnvironmentController) (rt : Runtime) (name : String) : M Bool :=
  bindM (validate_service_name c name) fun _ =>
  bindM (get_container_id c rt name) fun container_id =>
    ([Event.cmdInspect name],
     match rt.inspectRes container_id with
     | some status_output => Except.ok (is_container_ready_classify status_output)
     | none => Except.ok false)

/-! ### Readiness waiter (`wait_for_services`, lines 275-295) -/

/-- The polling loop of the `waiting` library, purely: readiness is a
predicate of the poll tick, and the loop succeeds iff some tick within the
poll budget satisfies it. -/
def waiting_wait (check : Nat → Bool) (polls : Nat) : Bool :=
  (List.range polls).any check

/-- `wait_for_services` as a pure function of tick-indexed per-service
readiness: a falsy `services` argument (`None` or the empty list) falls back
to the full registry (`services if services else self.services`, line 281);
all requested services must be ready in the same tick; the call returns
`False` on timeout instead of letting `waiting.TimeoutExpired` escape.
Defaults (line 275): `services=None`, `interval=1`, `timeout=60`. -/
def wait_for_services (c : EnvironmentController) (ready : Nat → String → Bool)
    (services : Option (List String) := none) (interval : Nat := 1) (timeout : Nat := 60) :
    Bool :=
  let svcs :=
    match services with
    | none => c.services
    | some s => if s.isEmpty then c.services else s
  waiting_wait (fun t => svcs.all fun name => ready t name) (timeout / interval + 1)

/-- `wait_for_services` as one observable call, for operation traces: the
fault-injection scopes invoke the waiter and discard its boolean result. -/
def wait_for_services_call (c : EnvironmentController) (rt : Runtime)
    (services : Option (List String)) : M Bool :=
  let svcs :=
    match services with
    | none => c.services
    | some s => if s.isEmpty then c.services else s
  ([Event.waitFor svcs], Except.ok (rt.waitReady svcs))

/-! ### Fault-injection scopes (lines 297-347) -/

/-- `container_down` (lines 297-321): validate, kill, run the caller's
protected block, and in a `finally` restart the container and re-wait on
`[name]`. -/
def container_down (c : EnvironmentController) (rt : Runtime) (name : String)
    (block : M Unit) : M Unit :=
  bindM (validate_service_name c name) fun _ =>
  bindM (kill_container c rt name) fun _ =>
  tryFinallyM block
    (bindM (restart_container c rt name) fun _ =>
     bindM (wait_for_services_call c rt (some [name])) fun _ => pureM ())

/-- `container_paused` (lines 323-347): same shape with pause/unpause. -/
def container_paused (c : EnvironmentController) (rt : Runtime) (name : String)
    (block : M Unit) : M Unit :=
  bindM (validate_service_name c name) fun _ =>
  bindM (pause_container c rt name) fun _ =>
  tryFinallyM block
    (bindM (unpause_container c rt name) fun _ =>
     bindM (wait_for_services_call c rt (some [name])) fun _ => pureM ())

/-! ### Lifecycle (`setup`/`teardown`/`cleanup`, lines 60-97) -/

/-- `run_containers` (lines 99-108): `docker-compose up --build -d`. -/
def run_containers (rt : Runtime) : M Unit :=
  ([Event.cmdUp],
   if rt.upOk then Except.ok () else Except.error (Exc.runtimeError "run_containers"))

/-- `start_log_collection` (lines 110-117). -/
def start_log_collection (rt : Runtime) : M Unit :=
  ([Event.cmdLogsStart],
   if rt.logsStartOk then Except.ok ()
   else Except.error (Exc.runtimeError "start_log_collection"))

/-- `stop_log_collection` (lines 119-127). -/
def stop_log_collection (rt : Runtime) : M Unit :=
  ([Event.cmdLogsStop],
   if rt.logsStopOk then Except.ok ()
   else Except.error (Exc.runtimeError "stop_log_collection"))

/-- The `split_logs` step as seen by `teardown`: it may raise (for example
the key-not-found error). -/
def split_logs_step (rt : Runtime) : M Unit :=
  ([Event.logSplit],
   if rt.logSplitOk then Except.ok () else Except.error (Exc.stepError "split_logs"))

/-- `kill_containers` (lines 161-170): `docker-compose kill`. -/
def kill_containers (rt : Runtime) : M Unit :=
  ([Event.cmdKillAll],
   if rt.killAllOk then Except.ok () else Except.error (Exc.runtimeError "kill_containers"))

/-- `remove_containers` (lines 150-159): `docker-compose rm -f`. -/
def remove_containers (rt : Runtime) : M Unit :=
  ([Event.cmdRemove],
   if rt.removeOk then Except.ok () else Except.error (Exc.runtimeError "remove_containers"))

/-- `cleanup` (lines 87-97): a no-op under container reuse, otherwise kill
all containers then remove them. -/
def cleanup (c : EnvironmentController) (rt : Runtime) : M Unit :=
  if c.reuse_containers then pureM ()
  else bindM (kill_containers rt) fun _ => remove_containers rt

/-- The `try` body of `teardown` (lines 81-83): stop log collection, then
split the logs. -/
def teardown_logs_step (rt : Runtime) : M Unit :=
  bindM (stop_log_collection rt) fun _ => split_logs_step rt

/-- `teardown` (lines 75-85): the logs steps run under a `finally` whose
finaliser is `cleanup`. -/
def teardown (c : EnvironmentController) (rt : Runtime) : M Unit :=
  tryFinallyM (teardown_logs_step rt) (cleanup c rt)

/-- The `try` body of `setup` (lines 65-69): cleanup, run the containers,
start log collection. -/
def setup_body (c : EnvironmentController) (rt : Runtime) : M Unit :=
  bindM (cleanup c rt) fun _ =>
  bindM (run_containers rt) fun _ => start_log_collection rt

/-- `setup` (lines 60-73): on any failure of the body, the handler logs,
calls `teardown`, and then re-raises the original exception — the `raise`
statement is reached only if that rescue `teardown` returned. -/
def setup (c : EnvironmentController) (rt : Runtime) : M Unit :=
  tryCatchM (setup_body c rt) fun e =>
    bindM (teardown c rt) fun _ => raiseM e

/-! ### Concrete instances used by the witnesses -/

/-- A registry with the single service `"web"`, reuse disabled. -/
def ctrlWeb : EnvironmentController := { services := ["web"], reuse_containers := false }

/-- A runtime on which every command succeeds; inspect reports a running
container without a health check. -/
def rtAllOk : Runtime :=
  { killOk := fun _ => true
    restartOk := fun _ => true
    pauseOk := fun _ => true
    unpauseOk := fun _ => true
    psRes := fun _ => some "c0"
    inspectRes := fun _ => some (renderStateBlob RunState.running none)
    waitReady := fun _ => true
    killAllOk := true
    removeOk := true
    upOk := true
    logsStartOk := true
    logsStopOk := true
    logSplitOk := true }

/-- A runtime whose `ps -q` query exits non-zero. -/
def rtPsFail : Runtime := { rtAllOk with psRes := fun _ => none }

/-! ### Helper lemmas -/

theorem bindM_pure {α β : Type} (a : α) (f : α → M β) : bindM (pureM a) f = f a := by
  simp [bindM, pureM]

theorem bindM_raise {α β : Type} (e : Exc) (f : α → M β) : bindM (raiseM e) f = raiseM e := by
  simp [bindM, raiseM]

theorem classify_render (rs : RunState) (h : Option HealthState) :
    is_container_ready_classify (renderStateBlob rs h) = readinessSpec rs h := by
  cases h with
  | none => cases rs <;> decide
  | some hs => cases rs <;> cases hs <;> decide

/-! ### C1 -/

/-- C1: for every service name in the registry, `is_container_ready`
classifies the inspected state blob by the two-tier rule: with a declared
health check the result is true iff the health status is healthy (never
merely because the container is running); without one the result is true iff
the run status is running, and in particular a non-running blob without a
health field yields false. -/
theorem C1_is_container_ready_two_tier (c : EnvironmentController) (rt : Runtime)
    (name cid : String) (rs : RunState) (h : Option HealthState)
    (hname : name ∈ c.services)
    (hps : rt.psRes name = some cid)
    (hin : rt.inspectRes cid = some (renderStateBlob rs h)) :
    (is_container_ready c rt name).2 = Except.ok (readinessSpec rs h) := by
  simp [is_container_ready, get_container_id, validate_service_name, hname, hps, hin,
    bindM, pureM, classify_render]

theorem C1_is_container_ready_two_tier_witness :
    (is_container_ready ctrlWeb rtAllOk "web").2 = Except.ok true :=
  C1_is_container_ready_two_tier ctrlWeb rtAllOk "web" "c0" RunState.running none
    (by decide) rfl rfl

/-! ### C2 -/

/-- C2 counterexample: on a registry containing `"web"` and a runtime whose
id-resolution (`ps -q`) query exits non-zero, `is_container_ready` does not
return false — the `RuntimeError` raised by `get_container_id` propagates,
because the resolution happens outside the `try` that guards the inspect
command (line 256 vs. lines 257-265). -/
theorem C2_ps_failure_raises_counterexample :
    (is_container_ready ctrlWeb rtPsFail "web").2 =
        Except.error (Exc.runtimeError "get_container_id") ∧
    (is_container_ready ctrlWeb rtPsFail "web").2 ≠ Except.ok false := by
  have h1 : (is_container_ready ctrlWeb rtPsFail "web").2 =
      Except.error (Exc.runtimeError "get_container_id") := rfl
  refine ⟨h1, ?_⟩
  rw [h1]
  exact fun hcontra => Except.noConfusion hcontra

/-- C2 as amended: for every valid service name, when the inspect query for
the resolved container id fails (exits non-zero), `is_container_ready` logs
a warning and returns false; a failed id resolution instead raises a
`RuntimeError` out of `get_container_id`. -/
theorem C2_inspect_failure_not_ready (c : EnvironmentController) (rt : Runtime)
    (name cid : String)
    (hname : name ∈ c.services)
    (hps : rt.psRes name = some cid)
    (hin : rt.inspectRes cid = none) :
    (is_container_ready c rt name).2 = Except.ok false := by
  simp [is_container_ready, get_container_id, validate_service_name, hname, hps, hin,
    bindM, pureM]

theorem C2_inspect_failure_not_ready_witness :
    (is_container_ready ctrlWeb { rtAllOk with inspectRes := fun _ => none } "web").2 =
      Except.ok false :=
  C2_inspect_failure_not_ready ctrlWeb { rtAllOk with inspectRes := fun _ => none }
    "web" "c0" (by decide) rfl rfl

/-! ### C3 -/

/-- C3: for every valid service name, when the kill and restart commands
succeed, `container_down` performs exactly
[kill(name), protected block, restart(name), wait on [name]]; the restart
and the re-wait run on every exit path, and when the protected block raised,
its original exception still propagates after the restoration. -/
theorem C3_container_down_sequence (c : EnvironmentController) (rt : Runtime)
    (name : String) (blockRes : Except Exc Unit)
    (hname : name ∈ c.services)
    (hkill : rt.killOk name = true)
    (hrestart : rt.restartOk name = true) :
    container_down c rt name ([Event.blockRun], blockRes) =
      ([Event.cmdKill name, Event.blockRun, Event.cmdRestart name, Event.waitFor [name]],
        blockRes) := by
  simp [container_down, kill_container, restart_container, wait_for_services_call,
    validate_service_name, hname, hkill, hrestart, bindM, pureM, tryFinallyM]

theorem C3_container_down_sequence_witness :
    container_down ctrlWeb rtAllOk "web" ([Event.blockRun], Except.error (Exc.userError 7)) =
      ([Event.cmdKill "web", Event.blockRun, Event.cmdRestart "web", Event.waitFor ["web"]],
        Except.error (Exc.userError 7)) :=
  C3_container_down_sequence ctrlWeb rtAllOk "web" (Except.error (Exc.userError 7))
    (by decide) rfl rfl

/-! ### C4 -/

/-- C4: `wait_for_services` returns true exactly when some poll tick within
the timeout budget has every requested service ready, and otherwise returns
false — it is a total boolean function, so the timeout path cannot raise; a
falsy `services` argument polls the full registry; and the declared defaults
are `services=None`, `interval=1`, `timeout=60`. -/
theorem C4_wait_for_services_contract (c : EnvironmentController)
    (ready : Nat → String → Bool) (services : List String) (interval timeout : Nat) :
    (wait_for_services c ready (some services) interval timeout = true ↔
      ∃ t ≤ timeout / interval,
        ∀ name ∈ (if services.isEmpty then c.services else services), ready t name = true) ∧
    wait_for_services c ready none interval timeout =
      wait_for_services c ready (some c.services) interval timeout ∧
    wait_for_services c ready = wait_for_services c ready none 1 60 := by
  refine ⟨?_, ?_, rfl⟩
  · simp [wait_for_services, waiting_wait, List.any_eq_true, List.mem_range,
      Nat.lt_succ_iff, List.all_eq_true]
  · simp [wait_for_services]

theorem C4_wait_for_services_contract_witness :
    wait_for_services ctrlWeb (fun t _ => t == 2) (some []) 1 5 = true :=
  (C4_wait_for_services_contract ctrlWeb (fun t _ => t == 2) [] 1 5).1.mpr
    ⟨2, by decide, by decide⟩

/-! ### C5 -/

/-- A runtime on which `up` fails and the rescue teardown itself fails while
splitting the logs. -/
def rtShadow : Runtime := { rtAllOk with upOk := false, logSplitOk := false }

/-- A runtime on which `up` fails but every teardown step succeeds. -/
def rtUpFail : Runtime := { rtAllOk with upOk := false }

/-- C5 counterexample: bringing the containers up fails with the
`run_containers` error, the rescue `teardown` raises while splitting the
logs, and `setup` surfaces the teardown error — the handler calls
`teardown()` before the `raise` statement (lines 70-73), so a teardown
failure does shadow the original setup failure. -/
theorem C5_teardown_shadow_counterexample :
    (setup ctrlWeb rtShadow).2 = Except.error (Exc.stepError "split_logs") ∧
    (setup ctrlWeb rtShadow).2 ≠ Except.error (Exc.runtimeError "run_containers") := by
  have h1 : (setup ctrlWeb rtShadow).2 = Except.error (Exc.stepError "split_logs") := rfl
  refine ⟨h1, ?_⟩
  rw [h1]
  intro hcontra
  have h2 : Exc.stepError "split_logs" = Exc.runtimeError "run_containers" :=
    Except.error.inj hcontra
  exact Exc.noConfusion h2

/-- C5 as amended: whenever a step of setup fails, `setup` runs `teardown`
and — provided the rescue teardown completes without raising — re-raises the
original failure; when the rescue teardown itself raises, its exception
replaces (shadows) the original setup failure, which is only logged. -/
theorem C5_setup_rescue_reraises (c : EnvironmentController) (rt : Runtime) (e : Exc)
    (hfail : (setup_body c rt).2 = Except.error e)
    (htd : (teardown c rt).2 = Except.ok ()) :
    setup c rt = ((setup_body c rt).1 ++ (teardown c rt).1, Except.error e) := by
  unfold setup tryCatchM
  rcases hsb : setup_body c rt with ⟨evs, r⟩
  rw [hsb] at hfail
  simp only at hfail
  subst hfail
  rcases htd2 : teardown c rt with ⟨tevs, tr⟩
  rw [htd2] at htd
  simp only at htd
  subst htd
  simp [bindM, raiseM]

theorem C5_setup_rescue_reraises_witness :
    setup ctrlWeb rtUpFail =
      ((setup_body ctrlWeb rtUpFail).1 ++ (teardown ctrlWeb rtUpFail).1,
        Except.error (Exc.runtimeError "run_containers")) :=
  C5_setup_rescue_reraises ctrlWeb rtUpFail (Exc.runtimeError "run_containers") rfl rfl

/-! ### C6 -/

/-- A runtime on which splitting the logs fails. -/
def rtSplitFail : Runtime := { rtAllOk with logSplitOk := false }

/-- C6: in `teardown`, with reuse disabled and a kill-all command that exits
zero, the cleanup commands (kill all containers, then remove them) are
attempted on every path — the trace always ends with them, with no
assumption on whether stopping log collection or splitting the combined log
raised. -/
theorem C6_teardown_cleanup_unconditional (c : EnvironmentController) (rt : Runtime)
    (hre : c.reuse_containers = false)
    (hka : rt.killAllOk = true) :
    (teardown c rt).1 = (teardown_logs_step rt).1 ++ [Event.cmdKillAll, Event.cmdRemove] := by
  simp [teardown, tryFinallyM, cleanup, hre, hka, kill_containers, remove_containers, bindM]

theorem C6_teardown_cleanup_unconditional_witness :
    (teardown ctrlWeb rtSplitFail).1 =
      (teardown_logs_step rtSplitFail).1 ++ [Event.cmdKillAll, Event.cmdRemove] :=
  C6_teardown_cleanup_unconditional ctrlWeb rtSplitFail rfl rfl

/-! ### C7 -/

theorem processLogLine_no_sep (st : Except String (List (String × String))) (line : String)
    (h : pyFind line.toList SEPARATOR = -1) : processLogLine st line = st := by
  cases st with
  | error e => rfl
  | ok files =>
    have h2 : pyFind line.data SEPARATOR = -1 := h
    simp [processLogLine, splitLogLine, h2]

/-- C7 counterexample: on input line `"web_1  | hello\n"` with service set
`{"web"}`, `split_logs` writes `" hello\n"` — the remainder after the
separator verbatim, leading space included (`log_line[separator_location + 1:]`,
line 145) — not `"hello\n"` as the claim states. -/
theorem C7_message_not_stripped_counterexample :
    split_logs ["web"] ["web_1  | hello\n"] = Except.ok [("web", " hello\n")] ∧
    split_logs ["web"] ["web_1  | hello\n"] ≠ Except.ok [("web", "hello\n")] := by
  have h1 : split_logs ["web"] ["web_1  | hello\n"] = Except.ok [("web", " hello\n")] := rfl
  refine ⟨h1, ?_⟩
  rw [h1]
  intro hcontra
  have h2 : [("web", " hello\n")] = [("web", "hello\n")] := Except.ok.inj hcontra
  exact absurd h2 (by decide)

/-- C7 as amended: the line `"web_1  | hello\n"` with service set `{"web"}`
yields a `web.log` holding exactly `" hello\n"` (the remainder after the
separator, verbatim); every line containing no separator character is
written to no output file; and an empty combined input yields a
created-but-empty output file for every service. -/
theorem C7_split_logs_behavior (service_names pre post : List String) (line : String)
    (hnosep : pyFind line.toList SEPARATOR = -1) :
    split_logs ["web"] ["web_1  | hello\n"] = Except.ok [("web", " hello\n")] ∧
    split_logs service_names (pre ++ line :: post) = split_logs service_names (pre ++ post) ∧
    split_logs service_names [] = Except.ok (initLogFiles service_names) := by
  refine ⟨rfl, ?_, rfl⟩
  unfold split_logs
  rw [List.foldl_append, List.foldl_cons, processLogLine_no_sep _ _ hnosep,
    ← List.foldl_append]

theorem C7_split_logs_behavior_witness :
    split_logs ["web"] ["web_1  | hello\n"] = Except.ok [("web", " hello\n")] ∧
    split_logs ["web"] (["web_1  | hello\n"] ++ "dangling text\n" :: []) =
      split_logs ["web"] (["web_1  | hello\n"] ++ []) ∧
    split_logs ["web"] [] = Except.ok (initLogFiles ["web"]) :=
  C7_split_logs_behavior ["web"] ["web_1  | hello\n"] [] "dangling text\n" (by decide)

/-! ### C8 -/

/-- C8: for every name outside the registry, each per-container operation
fails with the invalid-service error and an empty trace — zero runtime
commands are attempted, because `validate_service_name` raises before any
command is issued. -/
theorem C8_unknown_name_rejected (c : EnvironmentController) (rt : Runtime)
    (name : String) (block : M Unit)
    (hname : name ∉ c.services) :
    kill_container c rt name = ([], Except.error (Exc.invalidService name)) ∧
    restart_container c rt name = ([], Except.error (Exc.invalidService name)) ∧
    pause_container c rt name = ([], Except.error (Exc.invalidService name)) ∧
    unpause_container c rt name = ([], Except.error (Exc.invalidService name)) ∧
    get_container_id c rt name = ([], Except.error (Exc.invalidService name)) ∧
    is_container_ready c rt name = ([], Except.error (Exc.invalidService name)) ∧
    container_down c rt name block = ([], Except.error (Exc.invalidService name)) ∧
    container_paused c rt name block = ([], Except.error (Exc.invalidService name)) := by
  refine ⟨?_, ?_, ?_, ?_, ?_, ?_, ?_, ?_⟩ <;>
    simp [kill_container, restart_container, pause_container, unpause_container,
      get_container_id, is_container_ready, container_down, container_paused,
      validate_service_name, hname, bindM, raiseM]

theorem C8_unknown_name_rejected_witness :
    kill_container ctrlWeb rtAllOk "db" = ([], Except.error (Exc.invalidService "db")) ∧
    restart_container ctrlWeb rtAllOk "db" = ([], Except.error (Exc.invalidService "db")) ∧
    pause_container ctrlWeb rtAllOk "db" = ([], Except.error (Exc.invalidService "db")) ∧
    unpause_container ctrlWeb rtAllOk "db" = ([], Except.error (Exc.invalidService "db")) ∧
    get_container_id ctrlWeb rtAllOk "db" = ([], Except.error (Exc.invalidService "db")) ∧
    is_container_ready ctrlWeb rtAllOk "db" = ([], Except.error (Exc.invalidService "db")) ∧
    container_down ctrlWeb rtAllOk "db" ([Event.blockRun], Except.ok ()) =
      ([], Except.error (Exc.invalidService "db")) ∧
    container_paused ctrlWeb rtAllOk "db" ([Event.blockRun], Except.ok ()) =
      ([], Except.error (Exc.invalidService "db")) :=
  C8_unknown_name_rejected ctrlWeb rtAllOk "db" ([Event.blockRun], Except.ok ()) (by decide)

/-! ### C9 -/

theorem lookup_cons_pair (k a b : String) (xs : List (String × String)) :
    List.lookup k ((a, b) :: xs) = if k == a then some b else List.lookup k xs := by
  cases h2 : k == a <;> simp [List.lookup, h2]

theorem lookup_isSome_writeMap (nm msg k : String) (files : List (String × String)) :
    ((files.map fun p => if p.1 == nm then (p.1, p.2 ++ msg) else p).lookup k).isSome
      = (files.lookup k).isSome := by
  induction files with
  | nil => rfl
  | cons p ps ih =>
    rcases p with ⟨a, b⟩
    dsimp only [List.map_cons]
    cases ha : a == nm <;>
      simp only [ha, if_true, if_false, Bool.false_eq_true, Bool.true_eq_false, ite_true,
        ite_false, lookup_cons_pair] <;>
      cases hk : k == a <;>
      simp [hk] <;>
      simpa using ih

theorem foldl_processLogLine_error (lines : List String) (e : String) :
    lines.foldl processLogLine (Except.error e) = Except.error e := by
  induction lines with
  | nil => rfl
  | cons l ls ih =>
    rw [List.foldl_cons]
    exact ih

theorem writeMessage_keys (files : List (String × String)) (nm msg : String)
    (files' : List (String × String)) (h : writeMessage files nm msg = Except.ok files')
    (k : String) : (files'.lookup k).isSome = (files.lookup k).isSome := by
  unfold writeMessage at h
  by_cases hnm : (files.lookup nm).isSome = true
  · rw [if_pos hnm] at h
    have h2 := Except.ok.inj h
    rw [← h2]
    exact lookup_isSome_writeMap nm msg k files
  · rw [if_neg hnm] at h
    exact Except.noConfusion h

theorem foldl_ok_keys (lines : List String) (files0 files : List (String × String))
    (h : lines.foldl processLogLine (Except.ok files0) = Except.ok files) (k : String) :
    (files.lookup k).isSome = (files0.lookup k).isSome := by
  induction lines generalizing files0 with
  | nil =>
    have h2 := Except.ok.inj h
    rw [← h2]
  | cons l ls ih =>
    rw [List.foldl_cons] at h
    cases hp : processLogLine (Except.ok files0) l with
    | error e =>
      rw [hp, foldl_processLogLine_error] at h
      exact Except.noConfusion h
    | ok f1 =>
      rw [hp] at h
      have h2 := ih f1 h
      rw [h2]
      simp only [processLogLine] at hp
      cases hsl : splitLogLine l.toList with
      | none =>
        rw [hsl] at hp
        have h3 := Except.ok.inj hp
        rw [h3]
      | some pr =>
        rcases pr with ⟨nm, msg⟩
        rw [hsl] at hp
        exact writeMessage_keys files0 (String.mk nm) (String.mk msg) f1 hp k

theorem lookup_initLogFiles (service_names : List String) (k : String) :
    ((initLogFiles service_names).lookup k).isSome = true ↔ k ∈ service_names := by
  induction service_names with
  | nil => simp [initLogFiles]
  | cons s ss ih =>
    rw [show initLogFiles (s :: ss) = (s, "") :: initLogFiles ss from rfl, lookup_cons_pair]
    cases hk : k == s
    · have hne : k ≠ s := by simpa using hk
      simp [hk, hne, ih]
    · have he : k = s := by simpa using hk
      simp [hk, he]

/-- C9: during `split_logs`, a line containing the separator whose recovered
service-name prefix is not a member of the service set is a hard failure —
the key-not-found error carrying that name is raised — rather than the line
being skipped; the failure aborts the rest of the pass. -/
theorem C9_unknown_prefix_raises (service_names pre : List String) (line : String)
    (post : List String) (files : List (String × String)) (nm msg : List Char)
    (hpre : split_logs service_names pre = Except.ok files)
    (hsplit : splitLogLine line.toList = some (nm, msg))
    (hnm : String.mk nm ∉ service_names) :
    split_logs service_names (pre ++ line :: post) = Except.error (String.mk nm) := by
  unfold split_logs at hpre ⊢
  rw [List.foldl_append, hpre, List.foldl_cons]
  have hkey : (files.lookup (String.mk nm)).isSome =
      ((initLogFiles service_names).lookup (String.mk nm)).isSome :=
    foldl_ok_keys pre (initLogFiles service_names) files hpre (String.mk nm)
  have hkey2 : ((initLogFiles service_names).lookup (String.mk nm)).isSome = false := by
    cases hb : ((initLogFiles service_names).lookup (String.mk nm)).isSome
    · rfl
    · exact absurd ((lookup_initLogFiles service_names (String.mk nm)).mp hb) hnm
  have hfalse : (files.lookup (String.mk nm)).isSome = false := by
    rw [hkey]
    exact hkey2
  have hsplit2 : splitLogLine line.data = some (nm, msg) := hsplit
  have hstep : processLogLine (Except.ok files) line = Except.error (String.mk nm) := by
    simp [processLogLine, hsplit2, writeMessage, hfalse]
  rw [hstep, foldl_processLogLine_error]

theorem C9_unknown_prefix_raises_witness :
    split_logs ["web"] ([] ++ "db_1 | x\n" :: []) = Except.error (String.mk ['d', 'b']) :=
  C9_unknown_prefix_raises ["web"] [] "db_1 | x\n" [] (initLogFiles ["web"])
    ['d', 'b'] [' ', 'x', '\n'] rfl rfl (by decide)

/-! ### C10 -/

theorem rightmostIdx_eq_neg_one (c : Char) (s : List Char) (h : c ∉ s) :
    rightmostIdx c s = -1 := by
  induction s with
  | nil => rfl
  | cons a as ih =>
    have h1 : c ≠ a := fun hc => h (hc ▸ List.mem_cons_self a as)
    have h2 : c ∉ as := fun hc => h (List.mem_cons_of_mem a hc)
    have hb : (a == c) = false := by
      simp only [beq_eq_false_iff_ne]
      exact fun hc => h1 hc.symm
    unfold rightmostIdx
    rw [ih h2]
    simp [hb]

theorem pyRFind_no_underscore (line : List Char) (stop : Nat)
    (h : UNDERSCORE ∉ line.take stop) : pyRFind line UNDERSCORE stop = -1 :=
  rightmostIdx_eq_neg_one UNDERSCORE (line.take stop) h

theorem pySliceTo_neg_one (s : List Char) : pySliceTo s (-1) = s.dropLast := by
  simp [pySliceTo, List.dropLast_eq_take]

/-- C10: for a line containing the separator but no underscore anywhere
before it, `rfind` returns the not-found sentinel `-1` and the slice
`log_line[:-1]` recovers the entire line minus its final character as the
service name — not the prefix before the separator; such a line then raises
the key-not-found failure for any registry whose names do not equal that
nearly-whole line. -/
theorem C10_missing_underscore_whole_line (line : List Char) (service_names : List String)
    (hsep : pyFind line SEPARATOR ≠ -1)
    (hnou : UNDERSCORE ∉ line.take (pyFind line SEPARATOR).toNat)
    (hreg : String.mk line.dropLast ∉ service_names) :
    splitLogLine line =
      some (line.dropLast, line.drop ((pyFind line SEPARATOR).toNat + 1)) ∧
    split_logs service_names [String.mk line] = Except.error (String.mk line.dropLast) := by
  have hb : (pyFind line SEPARATOR == -1) = false := by
    simp only [beq_eq_false_iff_ne]
    exact hsep
  have h1 : splitLogLine line =
      some (line.dropLast, line.drop ((pyFind line SEPARATOR).toNat + 1)) := by
    simp only [splitLogLine]
    rw [pyRFind_no_underscore line _ hnou, pySliceTo_neg_one]
    simp [hb]
  refine ⟨h1, ?_⟩
  have htl : (String.mk line).data = line := rfl
  have hfalse : ((initLogFiles service_names).lookup (String.mk line.dropLast)).isSome
      = false := by
    cases hb2 : ((initLogFiles service_names).lookup (String.mk line.dropLast)).isSome
    · rfl
    · exact absurd ((lookup_initLogFiles service_names (String.mk line.dropLast)).mp hb2) hreg
  have hstep : processLogLine (Except.ok (initLogFiles service_names)) (String.mk line)
      = Except.error (String.mk line.dropLast) := by
    simp [processLogLine, htl, h1, writeMessage, hfalse]
  show List.foldl processLogLine (Except.ok (initLogFiles service_names)) [String.mk line]
      = Except.error (String.mk line.dropLast)
  rw [List.foldl_cons, hstep]
  rfl

theorem C10_missing_underscore_whole_line_witness :
    splitLogLine "ab| c\n".toList =
      some ("ab| c\n".toList.dropLast,
        "ab| c\n".toList.drop ((pyFind "ab| c\n".toList SEPARATOR).toNat + 1)) ∧
    split_logs ["web"] [String.mk "ab| c\n".toList] =
      Except.error (String.mk "ab| c\n".toList.dropLast) :=
  C10_missing_underscore_whole_line "ab| c\n".toList ["web"] (by decide) (by decide)
    (by decide)
